import Mathlib

/-!
Shallow embedding of the green-chain backend (Flask + SQLite marketplace API).
Tables become lists of row structures; each HTTP route becomes a function
from a database state and an authenticated caller to a response paired with
the resulting database state.  REAL columns are modelled as rationals.
Request parsing (JSON number conversion, string strip and lowercase) is
treated as the transport layer; route bodies arrive already typed.
-/

namespace GreenChain

/-- A row of the users table: id and the role column named type in SQL. -/
structure User where
  id : Nat
  type : String
  deriving Repr, DecidableEq

/-- A row of the stalls table (columns irrelevant to the claims omitted). -/
structure Stall where
  id : Nat
  user_id : Nat
  deriving Repr, DecidableEq

/-- A row of the products table. -/
structure Product where
  id : Nat
  deriving Repr, DecidableEq

/-- A row of the supplies table. -/
structure Supply where
  id : Nat
  weight : Rat
  farmer_id : Nat
  product_id : Nat
  deriving Repr, DecidableEq

/-- A row of the demands table. -/
structure Demand where
  id : Nat
  weight : Rat
  stall_id : Nat
  product_id : Nat
  deriving Repr, DecidableEq

/-- A row of the requests table. -/
structure RequestRow where
  id : Nat
  price : Rat
  method : String
  status : String
  supply_id : Nat
  demand_id : Nat
  deriving Repr, DecidableEq

/-- A row of the stall_inventory table; the SQL column class is klass here. -/
structure InventoryRow where
  id : Nat
  stocks : Rat
  size : String
  type : String
  freshness : String
  klass : String
  price : Option Rat
  product_id : Nat
  stall_id : Nat
  deriving Repr, DecidableEq

/-- A row of the orders table; weight is nullable in the schema. -/
structure OrderRow where
  id : Nat
  amount : Rat
  method : String
  status : String
  weight : Option Rat
  stall_inventory_id : Nat
  consumer_id : Nat
  deriving Repr, DecidableEq

/-- The database state: one list per table the claims touch. -/
structure DB where
  users : List User
  stalls : List Stall
  products : List Product
  supplies : List Supply
  demands : List Demand
  requests : List RequestRow
  stall_inventory : List InventoryRow
  orders : List OrderRow
  deriving Repr, DecidableEq

/-- HTTP style outcome: ok carries the 2xx code and payload, err the
error code and the message body. -/
inductive Resp (α : Type) where
  | ok : Nat → α → Resp α
  | err : Nat → String → Resp α
  deriving Repr, DecidableEq

/-- Fresh AUTOINCREMENT id for a table: one more than the maximal id. -/
def freshId (ids : List Nat) : Nat := ids.foldr max 0 + 1

/-- True when the optional value is present and satisfies the test. -/
def someAnd {α : Type} (p : α → Bool) : Option α → Bool
  | some v => p v
  | none => false

def ALLOWED_METHODS : List String := ["gcash", "cash"]

def ORDER_ALLOWED_STATUS : List String :=
  ["processing", "accepted", "rejected", "completed", "cancelled"]

def REQUEST_ALLOWED_STATUS : List String :=
  ["processing", "accepted", "rejected", "completed"]

/-- auth_user plus the user lookup shared by every _require helper:
no token gives 401, an unknown id gives 404. -/
def requireUser (db : DB) (auth : Option Nat) : Except (Nat × String) User :=
  match auth with
  | none => .error (401, "unauthorized")
  | some uid =>
    match db.users.find? (fun u => u.id == uid) with
    | none => .error (404, "user not found")
    | some u => .ok u

/-- The _require_consumer / _require_disposer / _require_farmer pattern. -/
def requireRole (db : DB) (auth : Option Nat) (role : String) (msg : String) :
    Except (Nat × String) User :=
  match requireUser db auth with
  | .error e => .error e
  | .ok u => if u.type = role then .ok u else .error (403, msg)

/-- _get_disposer_stall_id: the first stall of the user in id order. -/
def stallIdForDisposer (db : DB) (uid : Nat) : Option Nat :=
  match (db.stalls.filter (fun s => s.user_id == uid)).map (fun s => s.id) with
  | [] => none
  | x :: xs => some (xs.foldl min x)

/-- The ORDER_SELECT join: the order row is visible only when its
stall_inventory, product and stall rows all exist.  Returns the order row
together with its inventory row. -/
def fetchOrderCtx (db : DB) (oid : Nat) : Option (OrderRow × InventoryRow) :=
  match db.orders.find? (fun o => o.id == oid) with
  | none => none
  | some o =>
    match db.stall_inventory.find? (fun si => si.id == o.stall_inventory_id) with
    | none => none
    | some si =>
      match db.products.find? (fun p => p.id == si.product_id) with
      | none => none
      | some _ =>
        match db.stalls.find? (fun s => s.id == si.stall_id) with
        | none => none
        | some _ => some (o, si)

/-- Body of POST /orders. -/
structure OrderBody where
  stall_inventory_id : Option Nat
  amount : Option Rat
  method : String
  weight : Option Rat
  deriving Repr, DecidableEq

/-- POST /orders (create_order): consumer only; validates the fields,
checks stocks, inserts the order with status processing and deducts the
ordered weight from the inventory row, then returns the joined row.
A failed final join surfaces after the commit, so the mutation stays. -/
def create_order (db : DB) (auth : Option Nat) (body : OrderBody) :
    Resp OrderRow × DB :=
  match requireRole db auth "consumer" "forbidden, consumer only" with
  | .error (c, m) => (.err c m, db)
  | .ok user =>
    match body.stall_inventory_id, body.amount, body.weight with
    | some invId, some amount, some weight =>
      if invId = 0 ∨ body.method = "" then
        (.err 400 "stall_inventory_id, amount, method, weight are all required", db)
      else if amount < 0 then (.err 400 "amount must be >= 0", db)
      else if weight ≤ 0 then (.err 400 "weight must be > 0", db)
      else if body.method ∈ ALLOWED_METHODS then
        match db.stall_inventory.find? (fun si => si.id == invId) with
        | none => (.err 404 "stall_inventory item not found", db)
        | some inv =>
          if inv.stocks < weight then
            (.err 400 "weight exceeds available stocks", db)
          else
            let oid := freshId (db.orders.map (fun o => o.id))
            let newOrder : OrderRow :=
              ⟨oid, amount, body.method, "processing", some weight, invId, user.id⟩
            let db1 : DB :=
              { db with
                orders := newOrder :: db.orders,
                stall_inventory := db.stall_inventory.map
                  (fun r => if r.id == invId then
                    { r with stocks := r.stocks - weight } else r) }
            match fetchOrderCtx db1 oid with
            | some (row, _) => (.ok 201 row, db1)
            | none => (.err 500 "internal", db1)
      else (.err 400 "method must be gcash or cash", db)
    | _, _, _ =>
      (.err 400 "stall_inventory_id, amount, method, weight are all required", db)

/-- DELETE /orders/id (delete_order): consumer only, own order, only while
processing; restores the weight to the inventory row, then deletes. -/
def delete_order (db : DB) (auth : Option Nat) (oid : Nat) : Resp Unit × DB :=
  match requireRole db auth "consumer" "forbidden, consumer only" with
  | .error (c, m) => (.err c m, db)
  | .ok user =>
    match db.orders.find? (fun o => o.id == oid) with
    | none => (.err 404 "order not found", db)
    | some o =>
      if o.consumer_id ≠ user.id then (.err 403 "forbidden, not your order", db)
      else if o.status ≠ "processing" then
        (.err 400 "only processing orders can be deleted", db)
      else
        let dbRestored : DB :=
          match o.weight with
          | some w =>
            { db with
              stall_inventory := db.stall_inventory.map
                (fun r => if r.id == o.stall_inventory_id then
                  { r with stocks := r.stocks + w } else r) }
          | none => db
        (.ok 204 (),
          { dbRestored with
            orders := dbRestored.orders.filter (fun x => !(x.id == oid)) })

/-- The ownership join of PATCH /orders/id/status: the order joined to its
inventory and to the stalls row, restricted to the given stall id. -/
def orderBelongsToStall (db : DB) (oid sid : Nat) : Bool :=
  match db.orders.find? (fun o => o.id == oid) with
  | none => false
  | some o =>
    match db.stall_inventory.find? (fun si => si.id == o.stall_inventory_id) with
    | none => false
    | some si =>
      si.stall_id == sid && (db.stalls.find? (fun s => s.id == si.stall_id)).isSome

/-- PATCH /orders/id/status (update_order_status): disposer only; after the
enum and ownership checks it updates only the status column of the order. -/
def update_order_status (db : DB) (auth : Option Nat) (oid : Nat)
    (status : String) : Resp OrderRow × DB :=
  match requireRole db auth "disposer" "forbidden, disposer only" with
  | .error (c, m) => (.err c m, db)
  | .ok user =>
    match stallIdForDisposer db user.id with
    | none => (.err 400 "no stall found for disposer", db)
    | some sid =>
      if status = "" then (.err 400 "status is required", db)
      else if status ∈ ORDER_ALLOWED_STATUS then
        if orderBelongsToStall db oid sid then
          let db1 : DB :=
            { db with
              orders := db.orders.map
                (fun o => if o.id == oid then { o with status := status } else o) }
          match fetchOrderCtx db1 oid with
          | some (row, _) => (.ok 200 row, db1)
          | none => (.err 500 "internal", db1)
        else (.err 404 "order not found", db)
      else
        (.err 400
          "status must be one of processing, accepted, rejected, completed, cancelled",
          db)

/-- GET /orders/id (get_order): a consumer sees only an own order, a
disposer only an order of the own stall; pure read. -/
def get_order (db : DB) (auth : Option Nat) (oid : Nat) : Resp OrderRow × DB :=
  match requireUser db auth with
  | .error (c, m) => (.err c m, db)
  | .ok user =>
    if user.type = "consumer" then
      match fetchOrderCtx db oid with
      | some (o, _) =>
        if o.consumer_id == user.id then (.ok 200 o, db)
        else (.err 404 "order not found", db)
      | none => (.err 404 "order not found", db)
    else if user.type = "disposer" then
      match stallIdForDisposer db user.id with
      | none => (.err 400 "no stall found for disposer", db)
      | some sid =>
        match fetchOrderCtx db oid with
        | some (o, si) =>
          if si.stall_id == sid then (.ok 200 o, db)
          else (.err 404 "order not found", db)
        | none => (.err 404 "order not found", db)
    else (.err 403 "forbidden", db)

/-- PATCH /orders/id/receive (consumer_receive_order): own order, only the
accepted to completed transition. -/
def consumer_receive_order (db : DB) (auth : Option Nat) (oid : Nat) :
    Resp OrderRow × DB :=
  match requireRole db auth "consumer" "forbidden, consumer only" with
  | .error (c, m) => (.err c m, db)
  | .ok user =>
    match db.orders.find? (fun o => o.id == oid) with
    | none => (.err 404 "order not found", db)
    | some o =>
      if o.consumer_id ≠ user.id then (.err 403 "forbidden, not your order", db)
      else if o.status ≠ "accepted" then
        (.err 400 "only accepted orders can be marked as completed", db)
      else
        let db1 : DB :=
          { db with
            orders := db.orders.map
              (fun x => if x.id == oid then { x with status := "completed" } else x) }
        match fetchOrderCtx db1 oid with
        | some (row, _) => (.ok 200 row, db1)
        | none => (.err 500 "internal", db1)

/-- The _REQUEST_BASE_SELECT join applied to one request row: its supply,
the farmer user, its demand and the stall of the demand must all exist. -/
def requestJoin (db : DB) (r : RequestRow) : Option (Supply × Demand) :=
  match db.supplies.find? (fun s => s.id == r.supply_id) with
  | none => none
  | some s =>
    match db.users.find? (fun u => u.id == s.farmer_id) with
    | none => none
    | some _ =>
      match db.demands.find? (fun d => d.id == r.demand_id) with
      | none => none
      | some d =>
        match db.stalls.find? (fun st => st.id == d.stall_id) with
        | none => none
        | some _ => some (s, d)

/-- The _REQUEST_BASE_SELECT join restricted to one request id. -/
def fetchRequestCtx (db : DB) (rid : Nat) :
    Option (RequestRow × Supply × Demand) :=
  match db.requests.find? (fun r => r.id == rid) with
  | none => none
  | some r =>
    match requestJoin db r with
    | none => none
    | some (s, d) => some (r, s, d)

/-- The farmer branch filter of GET /requests: the base join exists and the
supply of the request belongs to the given farmer. -/
def requestVisibleToFarmer (db : DB) (uid : Nat) (r : RequestRow) : Bool :=
  match requestJoin db r with
  | none => false
  | some (s, _) => s.farmer_id == uid

/-- The disposer branch filter of GET /requests: the base join exists and
the demand of the request belongs to the given stall. -/
def requestVisibleToStall (db : DB) (sid : Nat) (r : RequestRow) : Bool :=
  match requestJoin db r with
  | none => false
  | some (_, d) => d.stall_id == sid

/-- GET /requests (list_requests): farmers see requests over their own
supplies, disposers the requests over demands of their stall. -/
def list_requests (db : DB) (auth : Option Nat) : Resp (List RequestRow) × DB :=
  match requireUser db auth with
  | .error (c, m) => (.err c m, db)
  | .ok user =>
    if user.type = "farmer" then
      (.ok 200 (db.requests.filter (fun r => requestVisibleToFarmer db user.id r)), db)
    else if user.type = "disposer" then
      match stallIdForDisposer db user.id with
      | none => (.ok 200 [], db)
      | some sid =>
        (.ok 200 (db.requests.filter (fun r => requestVisibleToStall db sid r)), db)
    else (.err 403 "forbidden", db)

/-- GET /requests/id (get_request): visibility as in list_requests. -/
def get_request (db : DB) (auth : Option Nat) (rid : Nat) :
    Resp RequestRow × DB :=
  match requireUser db auth with
  | .error (c, m) => (.err c m, db)
  | .ok user =>
    if user.type = "farmer" then
      match fetchRequestCtx db rid with
      | some (r, s, _) =>
        if s.farmer_id == user.id then (.ok 200 r, db)
        else (.err 404 "request not found", db)
      | none => (.err 404 "request not found", db)
    else if user.type = "disposer" then
      match stallIdForDisposer db user.id with
      | none => (.err 400 "no stall found for disposer", db)
      | some sid =>
        match fetchRequestCtx db rid with
        | some (r, _, d) =>
          if d.stall_id == sid then (.ok 200 r, db)
          else (.err 404 "request not found", db)
        | none => (.err 404 "request not found", db)
    else (.err 403 "forbidden", db)

/-- The ownership join of PATCH /requests/id: request joined to its demand,
restricted to the given stall; no stalls join here. -/
def requestBelongsToStall (db : DB) (rid sid : Nat) : Bool :=
  match db.requests.find? (fun r => r.id == rid) with
  | none => false
  | some r =>
    match db.demands.find? (fun d => d.id == r.demand_id) with
    | none => false
    | some d => d.stall_id == sid

/-- PATCH /requests/id (update_request_status): disposer only; checks only
that the new status is in the enum and that the request belongs to the
stall, then overwrites the status column.  The current status is never
inspected. -/
def update_request_status (db : DB) (auth : Option Nat) (rid : Nat)
    (status : String) : Resp RequestRow × DB :=
  match requireRole db auth "disposer" "forbidden, disposer only" with
  | .error (c, m) => (.err c m, db)
  | .ok user =>
    match stallIdForDisposer db user.id with
    | none => (.err 400 "no stall found for disposer", db)
    | some sid =>
      if status = "" then (.err 400 "status is required", db)
      else if status ∈ REQUEST_ALLOWED_STATUS then
        if requestBelongsToStall db rid sid then
          let db1 : DB :=
            { db with
              requests := db.requests.map
                (fun r => if r.id == rid then { r with status := status } else r) }
          match fetchRequestCtx db1 rid with
          | some (row, _, _) => (.ok 200 row, db1)
          | none => (.err 500 "internal", db1)
        else (.err 404 "request not found", db)
      else
        (.err 400
          "status must be one of processing, accepted, rejected, completed", db)

/-- DELETE /requests/id (delete_request): farmer only, own supply, only
while the status is processing. -/
def delete_request (db : DB) (auth : Option Nat) (rid : Nat) : Resp Unit × DB :=
  match requireRole db auth "farmer" "forbidden, farmer only" with
  | .error (c, m) => (.err c m, db)
  | .ok user =>
    match db.requests.find? (fun r => r.id == rid) with
    | none => (.err 404 "request not found", db)
    | some r =>
      match db.supplies.find? (fun s => s.id == r.supply_id) with
      | none => (.err 404 "request not found", db)
      | some s =>
        if s.farmer_id ≠ user.id then (.err 403 "forbidden, not your request", db)
        else if r.status ≠ "processing" then
          (.err 400 "only processing requests can be deleted", db)
        else
          (.ok 204 (),
            { db with requests := db.requests.filter (fun x => !(x.id == rid)) })

/-- Body of POST /requests. -/
structure RequestBody where
  supply_id : Option Nat
  demand_id : Option Nat
  price : Option Rat
  method : String
  deriving Repr, DecidableEq

/-- POST /requests (create_request): farmer only; binds an existing own
supply to a demand after the product and weight checks, inserting a request
with status processing.  The joined response row is fetched before the
commit, so a failed join rolls the insert back. -/
def create_request (db : DB) (auth : Option Nat) (body : RequestBody) :
    Resp RequestRow × DB :=
  match requireRole db auth "farmer" "forbidden, farmer only" with
  | .error (c, m) => (.err c m, db)
  | .ok user =>
    match body.supply_id, body.demand_id, body.price with
    | some supplyId, some demandId, some price =>
      if supplyId = 0 ∨ demandId = 0 ∨ body.method = "" then
        (.err 400 "supply_id, demand_id, price, method are all required", db)
      else if price < 0 then (.err 400 "price must be >= 0", db)
      else if body.method ∈ ALLOWED_METHODS then
        match db.supplies.find? (fun s => s.id == supplyId) with
        | none => (.err 404 "supply not found", db)
        | some s =>
          if s.farmer_id ≠ user.id then (.err 403 "forbidden, not your supply", db)
          else
            match db.demands.find? (fun d => d.id == demandId) with
            | none => (.err 404 "demand not found", db)
            | some d =>
              if d.product_id ≠ s.product_id then
                (.err 400 "demand.product_id does not match supply.product_id", db)
              else if d.weight < s.weight then
                (.err 400 "supplied weight cannot exceed demanded weight", db)
              else
                let rid := freshId (db.requests.map (fun r => r.id))
                let newReq : RequestRow :=
                  ⟨rid, price, body.method, "processing", supplyId, demandId⟩
                let db1 : DB := { db with requests := newReq :: db.requests }
                match fetchRequestCtx db1 rid with
                | some (row, _, _) => (.ok 201 row, db1)
                | none => (.err 500 "internal", db)
      else (.err 400 "method must be gcash or cash", db)
    | _, _, _ =>
      (.err 400 "supply_id, demand_id, price, method are all required", db)

/-- Body of POST /supplies. -/
structure SupplyBody where
  product_id : Option Nat
  weight : Option Rat
  demand_id : Option Nat
  price : Option Rat
  method : String
  deriving Repr, DecidableEq

/-- POST /supplies (create_supply_and_request): farmer only; validates the
fields, the product and the demand, then inserts the supply and a linked
request with status processing and commits; the response rows are plain
selects by id, so success is total after the checks. -/
def create_supply_and_request (db : DB) (auth : Option Nat) (body : SupplyBody) :
    Resp (Supply × RequestRow) × DB :=
  match requireRole db auth "farmer" "forbidden, farmer only" with
  | .error (c, m) => (.err c m, db)
  | .ok user =>
    match body.product_id, body.weight, body.demand_id, body.price with
    | some pid, some weight, some demandId, some price =>
      if pid = 0 ∨ demandId = 0 ∨ body.method = "" then
        (.err 400 "product_id, weight, demand_id, price, method are all required", db)
      else if weight ≤ 0 then (.err 400 "weight must be > 0", db)
      else if price < 0 then (.err 400 "price must be >= 0", db)
      else if body.method ∈ ALLOWED_METHODS then
        match db.products.find? (fun p => p.id == pid) with
        | none => (.err 404 "product not found", db)
        | some _ =>
          match db.demands.find? (fun d => d.id == demandId) with
          | none => (.err 404 "demand not found", db)
          | some d =>
            if d.product_id ≠ pid then
              (.err 400 "demand.product_id does not match product_id", db)
            else if d.weight < weight then
              (.err 400 "supplied weight cannot exceed demanded weight", db)
            else
              let supplyId := freshId (db.supplies.map (fun s => s.id))
              let newSupply : Supply := ⟨supplyId, weight, user.id, pid⟩
              let db1 : DB := { db with supplies := newSupply :: db.supplies }
              let rid := freshId (db1.requests.map (fun r => r.id))
              let newReq : RequestRow :=
                ⟨rid, price, body.method, "processing", supplyId, demandId⟩
              let db2 : DB := { db1 with requests := newReq :: db1.requests }
              (.ok 201 (newSupply, newReq), db2)
      else (.err 400 "method must be gcash or cash", db)
    | _, _, _, _ =>
      (.err 400 "product_id, weight, demand_id, price, method are all required", db)

/-- Body of POST /demands. -/
structure DemandBody where
  product_id : Option Nat
  weight : Option Rat
  deriving Repr, DecidableEq

/-- The response join of the demand routes: the demand row is returned only
when its product and stall rows exist; the requests join is a LEFT JOIN
used only for a count. -/
def fetchDemandJoined (db : DB) (did : Nat) : Option Demand :=
  match db.demands.find? (fun d => d.id == did) with
  | none => none
  | some d =>
    match db.products.find? (fun p => p.id == d.product_id) with
    | none => none
    | some _ =>
      match db.stalls.find? (fun s => s.id == d.stall_id) with
      | none => none
      | some _ => some d

/-- POST /demands (create_or_update_demand): disposer only; when a demand
for the pair of the stall and the product already exists its weight is
overwritten, otherwise a new row is inserted.  Both branches commit before
the response row is fetched. -/
def create_or_update_demand (db : DB) (auth : Option Nat) (body : DemandBody) :
    Resp Demand × DB :=
  match requireRole db auth "disposer" "forbidden, disposer only" with
  | .error (c, m) => (.err c m, db)
  | .ok user =>
    match stallIdForDisposer db user.id with
    | none => (.err 400 "no stall found for disposer", db)
    | some sid =>
      match body.product_id, body.weight with
      | some pid, some weight =>
        if pid = 0 then (.err 400 "product_id and weight are required", db)
        else if weight ≤ 0 then (.err 400 "weight must be > 0", db)
        else
          match db.products.find? (fun p => p.id == pid) with
          | none => (.err 404 "product not found", db)
          | some _ =>
            match db.demands.find?
                (fun d => d.stall_id == sid && d.product_id == pid) with
            | some d0 =>
              let db1 : DB :=
                { db with
                  demands := db.demands.map
                    (fun d => if d.id == d0.id then { d with weight := weight } else d) }
              match fetchDemandJoined db1 d0.id with
              | some out => (.ok 200 out, db1)
              | none => (.err 500 "internal", db1)
            | none =>
              let did := freshId (db.demands.map (fun d => d.id))
              let db1 : DB :=
                { db with demands := (⟨did, weight, sid, pid⟩ : Demand) :: db.demands }
              match fetchDemandJoined db1 did with
              | some out => (.ok 200 out, db1)
              | none => (.err 500 "internal", db1)
      | _, _ => (.err 400 "product_id and weight are required", db)

/-- DELETE /demands/id (delete_demand): disposer only, own stall; deletes
the demand row and nothing else.  Requests referencing the demand are left
untouched. -/
def delete_demand (db : DB) (auth : Option Nat) (did : Nat) : Resp Unit × DB :=
  match requireRole db auth "disposer" "forbidden, disposer only" with
  | .error (c, m) => (.err c m, db)
  | .ok user =>
    match stallIdForDisposer db user.id with
    | none => (.err 400 "no stall found for disposer", db)
    | some sid =>
      match db.demands.find? (fun d => d.id == did) with
      | none => (.err 404 "demand not found", db)
      | some d =>
        if d.stall_id ≠ sid then (.err 403 "forbidden", db)
        else
          (.ok 204 (),
            { db with demands := db.demands.filter (fun x => !(x.id == did)) })

/-- POST /demands/id/complete (complete_demand): disposer only, own stall;
sets every request with this demand_id to completed and deletes the demand
row, in one commit. -/
def complete_demand (db : DB) (auth : Option Nat) (did : Nat) : Resp Unit × DB :=
  match requireRole db auth "disposer" "forbidden, disposer only" with
  | .error (c, m) => (.err c m, db)
  | .ok user =>
    match stallIdForDisposer db user.id with
    | none => (.err 400 "no stall found for disposer", db)
    | some sid =>
      match db.demands.find? (fun d => d.id == did) with
      | none => (.err 404 "demand not found", db)
      | some d =>
        if d.stall_id ≠ sid then (.err 404 "demand not found", db)
        else
          (.ok 200 (),
            { db with
              requests := db.requests.map
                (fun r => if r.demand_id == did then
                  { r with status := "completed" } else r),
              demands := db.demands.filter (fun x => !(x.id == did)) })

/-- Body of POST /stall_inventory. -/
structure InvBody where
  product_id : Option Nat
  stocks : Option Rat
  size : String
  type : String
  freshness : String
  klass : String
  price : Option Rat
  deriving Repr, DecidableEq

/-- POST /stall_inventory (create_stall_inventory): disposer only; requires
all fields, stocks strictly positive, an existing product and a free
(stall, product, size, type) key, then inserts the row. -/
def create_stall_inventory (db : DB) (auth : Option Nat) (body : InvBody) :
    Resp InventoryRow × DB :=
  match requireRole db auth "disposer" "forbidden, disposer only" with
  | .error (c, m) => (.err c m, db)
  | .ok user =>
    match stallIdForDisposer db user.id with
    | none => (.err 400 "no stall found for disposer", db)
    | some sid =>
      match body.product_id, body.stocks with
      | some pid, some stocks =>
        if pid = 0 ∨ body.size = "" ∨ body.type = "" ∨ body.freshness = "" ∨
            body.klass = "" then
          (.err 400 "product_id, stocks, size, type, freshness, class are required", db)
        else if stocks ≤ 0 then (.err 400 "stocks must be > 0", db)
        else if someAnd (fun p => decide (p < 0)) body.price then
          (.err 400 "price must be >= 0", db)
        else
          match db.products.find? (fun p => p.id == pid) with
          | none => (.err 404 "product not found", db)
          | some _ =>
            if (db.stall_inventory.find? (fun r =>
                r.stall_id == sid && r.product_id == pid &&
                r.size == body.size && r.type == body.type)).isSome then
              (.err 400
                "inventory for this product with the same size and type already exists",
                db)
            else
              let invId := freshId (db.stall_inventory.map (fun r => r.id))
              let newRow : InventoryRow :=
                ⟨invId, stocks, body.size, body.type, body.freshness, body.klass,
                  body.price, pid, sid⟩
              (.ok 201 newRow,
                { db with stall_inventory := newRow :: db.stall_inventory })
      | _, _ =>
        (.err 400 "product_id, stocks, size, type, freshness, class are required", db)

/-- Body of PATCH /stall_inventory/id: an outer none means the key is
absent; for price an inner none is an explicit null. -/
structure InvPatch where
  stocks : Option Rat
  price : Option (Option Rat)
  size : Option String
  type : Option String
  freshness : Option String
  klass : Option String
  deriving Repr, DecidableEq

/-- Apply the present patch fields to an inventory row. -/
def applyInvPatch (body : InvPatch) (r : InventoryRow) : InventoryRow :=
  { r with
    stocks := body.stocks.getD r.stocks,
    price := body.price.getD r.price,
    size := body.size.getD r.size,
    type := body.type.getD r.type,
    freshness := body.freshness.getD r.freshness,
    klass := body.klass.getD r.klass }

/-- PATCH /stall_inventory/id (update_stall_inventory): disposer only, own
stall; validates each present field (stocks strictly positive first), needs
at least one field, keeps the (stall, product, size, type) key unique, then
updates the row.  The response join needs the product row; a missing
product surfaces only after the commit. -/
def update_stall_inventory (db : DB) (auth : Option Nat) (invId : Nat)
    (body : InvPatch) : Resp InventoryRow × DB :=
  match requireRole db auth "disposer" "forbidden, disposer only" with
  | .error (c, m) => (.err c m, db)
  | .ok user =>
    match stallIdForDisposer db user.id with
    | none => (.err 400 "no stall found for disposer", db)
    | some sid =>
      match db.stall_inventory.find? (fun r => r.id == invId) with
      | none => (.err 404 "inventory item not found", db)
      | some row =>
        if row.stall_id ≠ sid then (.err 403 "forbidden", db)
        else if someAnd (fun v => decide (v ≤ 0)) body.stocks then
          (.err 400 "stocks must be > 0", db)
        else if someAnd (someAnd (fun p => decide (p < 0))) body.price then
          (.err 400 "price must be >= 0", db)
        else if someAnd (fun v => v == "") body.size then
          (.err 400 "size cannot be empty", db)
        else if someAnd (fun v => v == "") body.type then
          (.err 400 "type cannot be empty", db)
        else if someAnd (fun v => v == "") body.freshness then
          (.err 400 "freshness cannot be empty", db)
        else if someAnd (fun v => v == "") body.klass then
          (.err 400 "class cannot be empty", db)
        else if body.stocks.isNone && body.price.isNone && body.size.isNone &&
            body.type.isNone && body.freshness.isNone && body.klass.isNone then
          (.err 400 "no valid fields to update", db)
        else
          let newSize := body.size.getD row.size
          let newType := body.type.getD row.type
          if (db.stall_inventory.find? (fun r =>
              r.stall_id == sid && r.product_id == row.product_id &&
              r.size == newSize && r.type == newType && !(r.id == invId))).isSome then
            (.err 400
              "another inventory item with this product, size and type already exists",
              db)
          else
            let db1 : DB :=
              { db with
                stall_inventory := db.stall_inventory.map
                  (fun r => if r.id == invId then applyInvPatch body r else r) }
            match db.products.find? (fun p => p.id == row.product_id) with
            | some _ =>
              match (db1.stall_inventory.find? (fun r => r.id == invId)) with
              | some updated => (.ok 200 updated, db1)
              | none => (.err 500 "internal", db1)
            | none => (.err 500 "internal", db1)

/- ===== Helper definitions and lemmas used by the claim theorems ===== -/

/-- The stocks of one inventory row, as read back from the database. -/
def stocksOf (db : DB) (invId : Nat) : Option Rat :=
  (db.stall_inventory.find? (fun r => r.id == invId)).map (fun r => r.stocks)

/-- Sum of the weights of the orders drawing on one inventory row. -/
def liveOrderWeight (db : DB) (invId : Nat) : Rat :=
  ((db.orders.filter (fun o => o.stall_inventory_id == invId)).map
    (fun o => o.weight.getD 0)).sum

/-- Erase the status field, keeping every other column of an order. -/
def eraseStatus (o : OrderRow) : OrderRow := { o with status := "" }

/-- The supply of the request exists and belongs to the given farmer. -/
def supplyOwnedBy (db : DB) (uid : Nat) (r : RequestRow) : Bool :=
  match db.supplies.find? (fun s => s.id == r.supply_id) with
  | none => false
  | some s => s.farmer_id == uid

/-- The order row that a successful create_order inserts. -/
def newOrderOf (db : DB) (uid invId : Nat) (a w : Rat) (m : String) : OrderRow :=
  ⟨freshId (db.orders.map (fun o => o.id)), a, m, "processing", some w, invId, uid⟩

/-- The database state after a successful create_order. -/
def dbAfterCreateOrder (db : DB) (uid invId : Nat) (a w : Rat) (m : String) : DB :=
  { db with
    orders := newOrderOf db uid invId a w m :: db.orders,
    stall_inventory := db.stall_inventory.map
      (fun r => if r.id == invId then { r with stocks := r.stocks - w } else r) }

/-- A small concrete database used by the witnesses and counterexamples:
one disposer owning stall 1, two farmers, two consumers, one product, one
supply of farmer 2, one demand of stall 1, one completed request linking
them, one inventory row with ten units in stock and one processing order
of consumer 3. -/
def cdb : DB :=
  { users := [⟨1, "disposer"⟩, ⟨2, "farmer"⟩, ⟨3, "consumer"⟩, ⟨4, "consumer"⟩,
      ⟨5, "farmer"⟩],
    stalls := [⟨1, 1⟩],
    products := [⟨1⟩],
    supplies := [⟨1, 50, 2, 1⟩],
    demands := [⟨1, 50, 1, 1⟩],
    requests := [⟨1, 10, "cash", "completed", 1, 1⟩],
    stall_inventory := [⟨1, 10, "Big", "Organic", "fresh", "A", none, 1, 1⟩],
    orders := [⟨1, 5, "cash", "processing", some 2, 1, 3⟩] }

theorem mem_le_foldr_max (x : Nat) (l : List Nat) (h : x ∈ l) :
    x ≤ l.foldr max 0 := by
  induction l with
  | nil => cases h
  | cons a t ih =>
    rcases List.mem_cons.mp h with rfl | h2
    · exact le_max_left _ _
    · exact le_trans (ih h2) (le_max_right _ _)

theorem freshId_not_mem (l : List Nat) : freshId l ∉ l := by
  intro h
  have := mem_le_foldr_max _ _ h
  simp [freshId] at this

theorem find?_map_update {α : Type} (p : α → Bool) (g : α → α)
    (hg : ∀ a, p a = true → p (g a) = true)
    (l : List α) (a0 : α) (h : l.find? p = some a0) :
    (l.map (fun a => if p a then g a else a)).find? p = some (g a0) := by
  induction l with
  | nil => simp at h
  | cons a t ih =>
    by_cases hp : p a = true
    · rw [List.find?_cons_of_pos _ hp] at h
      cases h
      simp only [List.map_cons, if_pos hp]
      exact List.find?_cons_of_pos _ (hg _ hp)
    · have hp' : p a = false := by revert hp; cases p a <;> simp
      rw [List.find?_cons_of_neg _ (by simp [hp'])] at h
      simp only [List.map_cons, if_neg (by simp [hp'] : ¬ p a = true)]
      rw [List.find?_cons_of_neg _ (by simp [hp'])]
      exact ih h

theorem find?_filter_not_key {α : Type} (f : α → Nat) (k : Nat) (l : List α) :
    (l.filter (fun x => !(f x == k))).find? (fun x => f x == k) = none := by
  apply List.find?_eq_none.mpr
  intro x hx
  have := (List.mem_filter.mp hx).2
  simp only [Bool.not_eq_true'] at this
  simp [this]

theorem find?_map_pres {α : Type} (g : α → α) (p : α → Bool)
    (hp : ∀ a, p (g a) = p a) (l : List α) :
    (l.map g).find? p = (l.find? p).map g := by
  induction l with
  | nil => rfl
  | cons a t ih =>
    by_cases h : p a = true
    · rw [List.find?_cons_of_pos _ h, List.map_cons,
        List.find?_cons_of_pos _ (by rw [hp]; exact h)]
      rfl
    · have h' : p a = false := by revert h; cases p a <;> simp
      rw [List.find?_cons_of_neg _ (by simp [h']), List.map_cons,
        List.find?_cons_of_neg _ (by simp [hp, h'])]
      exact ih

theorem filter_map_pres {α : Type} (g : α → α) (p : α → Bool)
    (hp : ∀ a, p (g a) = p a) (l : List α) :
    (l.map g).filter p = (l.filter p).map g := by
  induction l with
  | nil => rfl
  | cons a t ih =>
    by_cases h : p a = true
    · rw [List.filter_cons_of_pos h, List.map_cons, List.map_cons,
        List.filter_cons_of_pos (by rw [hp]; exact h), ih]
    · have h' : p a = false := by revert h; cases p a <;> simp
      rw [List.filter_cons_of_neg (by simp [h']), List.map_cons,
        List.filter_cons_of_neg (by simp [hp, h']), ih]

theorem find?_eq_some_id {α : Type} (f : α → Nat) (l : List α) (k : Nat) (a : α)
    (h : l.find? (fun x => f x == k) = some a) : f a = k := by
  have := List.find?_some h
  simpa using this

theorem method_mem_ne_empty {m : String} (h : m ∈ ALLOWED_METHODS) : m ≠ "" := by
  simp [ALLOWED_METHODS] at h
  rcases h with rfl | rfl <;> decide

theorem requireUser_ok (db : DB) (uid : Nat) (u : User)
    (hu : db.users.find? (fun x => x.id == uid) = some u) :
    requireUser db (some uid) = .ok u := by
  simp [requireUser, hu]

theorem requireRole_ok (db : DB) (uid : Nat) (u : User) (role msg : String)
    (hu : db.users.find? (fun x => x.id == uid) = some u) (hty : u.type = role) :
    requireRole db (some uid) role msg = .ok u := by
  simp [requireRole, requireUser, hu, hty]

/- ===== Route level lemmas ===== -/

theorem create_order_insufficient (db : DB) (uid invId : Nat) (a w : Rat)
    (m : String) (u : User) (inv : InventoryRow)
    (hu : db.users.find? (fun x => x.id == uid) = some u)
    (hty : u.type = "consumer")
    (hinv : db.stall_inventory.find? (fun si => si.id == invId) = some inv)
    (hid : invId ≠ 0)
    (hm : m ∈ ALLOWED_METHODS)
    (ha : 0 ≤ a) (hw : 0 < w)
    (hlt : inv.stocks < w) :
    create_order db (some uid) ⟨some invId, some a, m, some w⟩ =
      (.err 400 "weight exceeds available stocks", db) := by
  have hrole := requireRole_ok db uid u "consumer" "forbidden, consumer only" hu hty
  simp only [create_order, hrole]
  rw [if_neg (not_or.mpr ⟨hid, method_mem_ne_empty hm⟩)]
  rw [if_neg (not_lt.mpr ha)]
  rw [if_neg (not_le.mpr hw)]
  rw [if_pos hm]
  simp only [hinv]
  rw [if_pos hlt]

theorem create_order_success (db : DB) (uid invId : Nat) (a w : Rat) (m : String)
    (u : User) (inv : InventoryRow)
    (hu : db.users.find? (fun x => x.id == uid) = some u)
    (hty : u.type = "consumer")
    (hinv : db.stall_inventory.find? (fun si => si.id == invId) = some inv)
    (hid : invId ≠ 0)
    (hm : m ∈ ALLOWED_METHODS)
    (ha : 0 ≤ a) (hw : 0 < w)
    (hle : w ≤ inv.stocks)
    (hp : (db.products.find? (fun p => p.id == inv.product_id)).isSome)
    (hst : (db.stalls.find? (fun s => s.id == inv.stall_id)).isSome) :
    create_order db (some uid) ⟨some invId, some a, m, some w⟩ =
      (.ok 201 (newOrderOf db uid invId a w m),
        dbAfterCreateOrder db uid invId a w m) := by
  have huid : u.id = uid := find?_eq_some_id (fun x : User => x.id) _ _ _ hu
  have hrole := requireRole_ok db uid u "consumer" "forbidden, consumer only" hu hty
  have hfind : (newOrderOf db uid invId a w m :: db.orders).find?
      (fun o => o.id == freshId (db.orders.map (fun o => o.id))) =
      some (newOrderOf db uid invId a w m) :=
    List.find?_cons_of_pos _ (by simp [newOrderOf])
  have hinv2 : (db.stall_inventory.map
      (fun r => if r.id == invId then { r with stocks := r.stocks - w } else r)).find?
      (fun si => si.id == invId) = some { inv with stocks := inv.stocks - w } := by
    have := find?_map_update (fun r : InventoryRow => r.id == invId)
      (fun r => { r with stocks := r.stocks - w }) (fun r h => h) db.stall_inventory inv hinv
    simpa using this
  obtain ⟨prod, hprod⟩ := Option.isSome_iff_exists.mp hp
  obtain ⟨st, hstall⟩ := Option.isSome_iff_exists.mp hst
  have hctx : fetchOrderCtx (dbAfterCreateOrder db uid invId a w m)
      (freshId (db.orders.map (fun o => o.id))) =
      some (newOrderOf db uid invId a w m, { inv with stocks := inv.stocks - w }) := by
    simp only [fetchOrderCtx, dbAfterCreateOrder, newOrderOf]
    rw [List.find?_cons_of_pos _ (by simp)]
    simp only [hinv2, hprod, hstall]
  simp only [create_order, hrole]
  rw [if_neg (not_or.mpr ⟨hid, method_mem_ne_empty hm⟩)]
  rw [if_neg (not_lt.mpr ha)]
  rw [if_neg (not_le.mpr hw)]
  rw [if_pos hm]
  simp only [hinv]
  rw [if_neg (not_lt.mpr hle)]
  simp only [huid]
  simp only [dbAfterCreateOrder, newOrderOf] at hctx
  simp only [hctx]
  simp only [dbAfterCreateOrder, newOrderOf]

theorem delete_order_success (db : DB) (uid oid : Nat) (w : Rat)
    (u : User) (o : OrderRow)
    (hu : db.users.find? (fun x => x.id == uid) = some u)
    (hty : u.type = "consumer")
    (ho : db.orders.find? (fun x => x.id == oid) = some o)
    (hown : o.consumer_id = u.id)
    (hstatus : o.status = "processing")
    (hw : o.weight = some w) :
    delete_order db (some uid) oid =
      (.ok 204 (),
        { db with
          stall_inventory := db.stall_inventory.map
            (fun r => if r.id == o.stall_inventory_id then
              { r with stocks := r.stocks + w } else r),
          orders := db.orders.filter (fun x => !(x.id == oid)) }) := by
  have hrole := requireRole_ok db uid u "consumer" "forbidden, consumer only" hu hty
  simp only [delete_order, hrole, ho]
  rw [if_neg (by simp [hown])]
  rw [if_neg (by simp [hstatus])]
  simp only [hw]

theorem delete_demand_success (db : DB) (uid did sid : Nat)
    (u : User) (d : Demand)
    (hu : db.users.find? (fun x => x.id == uid) = some u)
    (hty : u.type = "disposer")
    (hsid : stallIdForDisposer db uid = some sid)
    (hd : db.demands.find? (fun x => x.id == did) = some d)
    (hown : d.stall_id = sid) :
    delete_demand db (some uid) did =
      (.ok 204 (),
        { db with demands := db.demands.filter (fun x => !(x.id == did)) }) := by
  have huid : u.id = uid := find?_eq_some_id (fun x : User => x.id) _ _ _ hu
  have hrole := requireRole_ok db uid u "disposer" "forbidden, disposer only" hu hty
  have hsid' : stallIdForDisposer db u.id = some sid := by rw [huid]; exact hsid
  simp only [delete_demand, hrole, hsid', hd]
  rw [if_neg (by simp [hown])]

theorem complete_demand_success (db : DB) (uid did sid : Nat)
    (u : User) (d : Demand)
    (hu : db.users.find? (fun x => x.id == uid) = some u)
    (hty : u.type = "disposer")
    (hsid : stallIdForDisposer db uid = some sid)
    (hd : db.demands.find? (fun x => x.id == did) = some d)
    (hown : d.stall_id = sid) :
    complete_demand db (some uid) did =
      (.ok 200 (),
        { db with
          requests := db.requests.map
            (fun r => if r.demand_id == did then { r with status := "completed" } else r),
          demands := db.demands.filter (fun x => !(x.id == did)) }) := by
  have huid : u.id = uid := find?_eq_some_id (fun x : User => x.id) _ _ _ hu
  have hrole := requireRole_ok db uid u "disposer" "forbidden, disposer only" hu hty
  have hsid' : stallIdForDisposer db u.id = some sid := by rw [huid]; exact hsid
  simp only [complete_demand, hrole, hsid', hd]
  rw [if_neg (by simp [hown])]

/-- Every request of the given demand has status completed after the bulk
update of complete_demand. -/
theorem completed_all (l : List RequestRow) (did : Nat) :
    (l.map (fun r => if r.demand_id == did then { r with status := "completed" } else r)).all
      (fun r => !(r.demand_id == did) || (r.status == "completed")) = true := by
  rw [List.all_eq_true]
  intro r' hr'
  obtain ⟨r, _, rfl⟩ := List.mem_map.mp hr'
  by_cases h : (r.demand_id == did) = true
  · simp [h]
  · have h' : (r.demand_id == did) = false := by revert h; cases r.demand_id == did <;> simp
    simp [h']

theorem filter_pair_upd (l : List Demand) (sid pid k : Nat) (w : Rat) :
    (l.map (fun d => if d.id == k then { d with weight := w } else d)).filter
      (fun d => d.stall_id == sid && d.product_id == pid) =
    (l.filter (fun d => d.stall_id == sid && d.product_id == pid)).map
      (fun d => if d.id == k then { d with weight := w } else d) := by
  apply filter_map_pres
  intro a
  by_cases h : (a.id == k) = true <;> simp [h]

theorem find?_pair_upd (l : List Demand) (sid pid k : Nat) (w : Rat) :
    (l.map (fun d => if d.id == k then { d with weight := w } else d)).find?
      (fun d => d.stall_id == sid && d.product_id == pid) =
    (l.find? (fun d => d.stall_id == sid && d.product_id == pid)).map
      (fun d => if d.id == k then { d with weight := w } else d) := by
  apply find?_map_pres
  intro a
  by_cases h : (a.id == k) = true <;> simp [h]

theorem upsert_update_state (db : DB) (uid sid pid : Nat) (w : Rat)
    (u : User) (d0 : Demand)
    (hu : db.users.find? (fun x => x.id == uid) = some u)
    (hty : u.type = "disposer")
    (hsid : stallIdForDisposer db uid = some sid)
    (hpid : pid ≠ 0) (hw : 0 < w)
    (hprod : (db.products.find? (fun p => p.id == pid)).isSome)
    (hfind : db.demands.find?
      (fun d => d.stall_id == sid && d.product_id == pid) = some d0) :
    (create_or_update_demand db (some uid) ⟨some pid, some w⟩).2 =
      { db with
        demands := db.demands.map
          (fun d => if d.id == d0.id then { d with weight := w } else d) } := by
  have huid : u.id = uid := find?_eq_some_id (fun x : User => x.id) _ _ _ hu
  have hrole := requireRole_ok db uid u "disposer" "forbidden, disposer only" hu hty
  have hsid' : stallIdForDisposer db u.id = some sid := by rw [huid]; exact hsid
  obtain ⟨prod, hprod'⟩ := Option.isSome_iff_exists.mp hprod
  simp only [create_or_update_demand, hrole, hsid']
  rw [if_neg hpid, if_neg (not_le.mpr hw)]
  simp only [hprod', hfind]
  split <;> rfl

theorem upsert_insert_state (db : DB) (uid sid pid : Nat) (w : Rat)
    (u : User)
    (hu : db.users.find? (fun x => x.id == uid) = some u)
    (hty : u.type = "disposer")
    (hsid : stallIdForDisposer db uid = some sid)
    (hpid : pid ≠ 0) (hw : 0 < w)
    (hprod : (db.products.find? (fun p => p.id == pid)).isSome)
    (hfind : db.demands.find?
      (fun d => d.stall_id == sid && d.product_id == pid) = none) :
    (create_or_update_demand db (some uid) ⟨some pid, some w⟩).2 =
      { db with
        demands :=
          (⟨freshId (db.demands.map (fun d => d.id)), w, sid, pid⟩ : Demand) ::
            db.demands } := by
  have huid : u.id = uid := find?_eq_some_id (fun x : User => x.id) _ _ _ hu
  have hrole := requireRole_ok db uid u "disposer" "forbidden, disposer only" hu hty
  have hsid' : stallIdForDisposer db u.id = some sid := by rw [huid]; exact hsid
  obtain ⟨prod, hprod'⟩ := Option.isSome_iff_exists.mp hprod
  simp only [create_or_update_demand, hrole, hsid']
  rw [if_neg hpid, if_neg (not_le.mpr hw)]
  simp only [hprod', hfind]
  split <;> rfl

theorem create_supply_and_request_eq (db : DB) (uid pid did : Nat)
    (w price : Rat) (m : String) (u : User) (d : Demand)
    (hu : db.users.find? (fun x => x.id == uid) = some u)
    (hty : u.type = "farmer")
    (hpid : pid ≠ 0) (hdid : did ≠ 0)
    (hm : m ∈ ALLOWED_METHODS)
    (hw : 0 < w) (hprice : 0 ≤ price)
    (hprod : (db.products.find? (fun p => p.id == pid)).isSome)
    (hd : db.demands.find? (fun x => x.id == did) = some d) :
    create_supply_and_request db (some uid) ⟨some pid, some w, some did, some price, m⟩ =
      if d.product_id ≠ pid then
        (.err 400 "demand.product_id does not match product_id", db)
      else if d.weight < w then
        (.err 400 "supplied weight cannot exceed demanded weight", db)
      else
        (.ok 201 (⟨freshId (db.supplies.map (fun s => s.id)), w, uid, pid⟩,
            ⟨freshId (db.requests.map (fun r => r.id)), price, m, "processing",
              freshId (db.supplies.map (fun s => s.id)), did⟩),
          { db with
            supplies :=
              (⟨freshId (db.supplies.map (fun s => s.id)), w, uid, pid⟩ : Supply) ::
                db.supplies,
            requests :=
              (⟨freshId (db.requests.map (fun r => r.id)), price, m, "processing",
                freshId (db.supplies.map (fun s => s.id)), did⟩ : RequestRow) ::
                db.requests }) := by
  have huid : u.id = uid := find?_eq_some_id (fun x : User => x.id) _ _ _ hu
  have hrole := requireRole_ok db uid u "farmer" "forbidden, farmer only" hu hty
  obtain ⟨prod, hprod'⟩ := Option.isSome_iff_exists.mp hprod
  simp only [create_supply_and_request, hrole]
  rw [if_neg (by push_neg; exact ⟨hpid, hdid, method_mem_ne_empty hm⟩)]
  rw [if_neg (not_le.mpr hw)]
  rw [if_neg (not_lt.mpr hprice)]
  rw [if_pos hm]
  simp only [hprod', hd, huid]

theorem create_request_eq (db : DB) (uid sId did : Nat)
    (price : Rat) (m : String) (u : User) (s : Supply) (d : Demand)
    (hu : db.users.find? (fun x => x.id == uid) = some u)
    (hty : u.type = "farmer")
    (hsid : sId ≠ 0) (hdid : did ≠ 0)
    (hm : m ∈ ALLOWED_METHODS)
    (hprice : 0 ≤ price)
    (hs : db.supplies.find? (fun x => x.id == sId) = some s)
    (hsown : s.farmer_id = uid)
    (hd : db.demands.find? (fun x => x.id == did) = some d)
    (hstall : (db.stalls.find? (fun st => st.id == d.stall_id)).isSome) :
    create_request db (some uid) ⟨some sId, some did, some price, m⟩ =
      if d.product_id ≠ s.product_id then
        (.err 400 "demand.product_id does not match supply.product_id", db)
      else if d.weight < s.weight then
        (.err 400 "supplied weight cannot exceed demanded weight", db)
      else
        (.ok 201 (⟨freshId (db.requests.map (fun r => r.id)), price, m, "processing",
            sId, did⟩ : RequestRow),
          { db with
            requests :=
              (⟨freshId (db.requests.map (fun r => r.id)), price, m, "processing",
                sId, did⟩ : RequestRow) :: db.requests }) := by
  have huid : u.id = uid := find?_eq_some_id (fun x : User => x.id) _ _ _ hu
  have hrole := requireRole_ok db uid u "farmer" "forbidden, farmer only" hu hty
  obtain ⟨st, hstall'⟩ := Option.isSome_iff_exists.mp hstall
  have hctx : fetchRequestCtx
      { db with
        requests :=
          (⟨freshId (db.requests.map (fun r => r.id)), price, m, "processing",
            sId, did⟩ : RequestRow) :: db.requests }
      (freshId (db.requests.map (fun r => r.id))) =
      some (⟨freshId (db.requests.map (fun r => r.id)), price, m, "processing",
        sId, did⟩, s, d) := by
    simp only [fetchRequestCtx]
    rw [List.find?_cons_of_pos _ (by simp)]
    simp only [requestJoin, hs, hsown, hu, hd, hstall']
  simp only [create_request, hrole]
  rw [if_neg (by push_neg; exact ⟨hsid, hdid, method_mem_ne_empty hm⟩)]
  rw [if_neg (not_lt.mpr hprice)]
  rw [if_pos hm]
  simp only [hs]
  rw [if_neg (by simp [hsown, huid])]
  simp only [hd, hctx]

theorem list_requests_farmer_eq (db : DB) (uid : Nat) (u : User)
    (hu : db.users.find? (fun x => x.id == uid) = some u)
    (hty : u.type = "farmer") :
    list_requests db (some uid) =
      (.ok 200 (db.requests.filter (fun r => requestVisibleToFarmer db uid r)), db) := by
  have huid : u.id = uid := find?_eq_some_id (fun x : User => x.id) _ _ _ hu
  simp only [list_requests, requireUser_ok db uid u hu, hty, huid]
  rw [if_pos trivial]

theorem visible_filter_owned (db : DB) (uid : Nat) :
    (db.requests.filter (fun r => requestVisibleToFarmer db uid r)).all
      (fun r => supplyOwnedBy db uid r) = true := by
  rw [List.all_eq_true]
  intro r hr
  have hvis := (List.mem_filter.mp hr).2
  unfold requestVisibleToFarmer requestJoin at hvis
  unfold supplyOwnedBy
  cases hfs : db.supplies.find? (fun s => s.id == r.supply_id) with
  | none => simp only [hfs] at hvis; exact absurd hvis (by decide)
  | some s =>
    simp only [hfs] at hvis
    cases hfu : db.users.find? (fun x => x.id == s.farmer_id) with
    | none => simp only [hfu] at hvis; exact absurd hvis (by decide)
    | some uf =>
      simp only [hfu] at hvis
      cases hfd : db.demands.find? (fun x => x.id == r.demand_id) with
      | none => simp only [hfd] at hvis; exact absurd hvis (by decide)
      | some dd =>
        simp only [hfd] at hvis
        cases hft : db.stalls.find? (fun x => x.id == dd.stall_id) with
        | none => simp only [hft] at hvis; exact absurd hvis (by decide)
        | some stl => simp only [hft] at hvis; exact hvis

theorem get_request_wrong_farmer (db : DB) (uid rid : Nat) (u : User)
    (r : RequestRow) (s : Supply)
    (hu : db.users.find? (fun x => x.id == uid) = some u)
    (hty : u.type = "farmer")
    (hr : db.requests.find? (fun x => x.id == rid) = some r)
    (hs : db.supplies.find? (fun x => x.id == r.supply_id) = some s)
    (hne : s.farmer_id ≠ uid) :
    get_request db (some uid) rid = (.err 404 "request not found", db) := by
  have huid : u.id = uid := find?_eq_some_id (fun x : User => x.id) _ _ _ hu
  simp only [get_request, requireUser_ok db uid u hu, hty]
  rw [if_pos trivial]
  simp only [fetchRequestCtx, hr, requestJoin, hs]
  cases hfu : db.users.find? (fun x => x.id == s.farmer_id) with
  | none => simp only [hfu]
  | some uf =>
    simp only [hfu]
    cases hfd : db.demands.find? (fun x => x.id == r.demand_id) with
    | none => simp only [hfd]
    | some dd =>
      simp only [hfd]
      cases hft : db.stalls.find? (fun x => x.id == dd.stall_id) with
      | none => simp only [hft]
      | some stl =>
        simp only [hft, huid]
        rw [if_neg (by simp [hne])]

theorem delete_request_wrong_farmer (db : DB) (uid rid : Nat) (u : User)
    (r : RequestRow) (s : Supply)
    (hu : db.users.find? (fun x => x.id == uid) = some u)
    (hty : u.type = "farmer")
    (hr : db.requests.find? (fun x => x.id == rid) = some r)
    (hs : db.supplies.find? (fun x => x.id == r.supply_id) = some s)
    (hne : s.farmer_id ≠ uid) :
    delete_request db (some uid) rid = (.err 403 "forbidden, not your request", db) := by
  have huid : u.id = uid := find?_eq_some_id (fun x : User => x.id) _ _ _ hu
  have hrole := requireRole_ok db uid u "farmer" "forbidden, farmer only" hu hty
  simp only [delete_request, hrole, hr, hs, huid]
  rw [if_pos hne]

theorem get_order_wrong_consumer (db : DB) (uid oid : Nat) (u : User) (o : OrderRow)
    (hu : db.users.find? (fun x => x.id == uid) = some u)
    (hty : u.type = "consumer")
    (ho : db.orders.find? (fun x => x.id == oid) = some o)
    (hne : o.consumer_id ≠ uid) :
    get_order db (some uid) oid = (.err 404 "order not found", db) := by
  have huid : u.id = uid := find?_eq_some_id (fun x : User => x.id) _ _ _ hu
  simp only [get_order, requireUser_ok db uid u hu, hty]
  rw [if_pos trivial]
  simp only [fetchOrderCtx, ho]
  cases hfi : db.stall_inventory.find? (fun si => si.id == o.stall_inventory_id) with
  | none => simp only [hfi]
  | some si =>
    simp only [hfi]
    cases hfp : db.products.find? (fun p => p.id == si.product_id) with
    | none => simp only [hfp]
    | some pr =>
      simp only [hfp]
      cases hft : db.stalls.find? (fun st => st.id == si.stall_id) with
      | none => simp only [hft]
      | some stl =>
        simp only [hft, huid]
        rw [if_neg (by simp [hne])]

theorem create_stall_inventory_nonpos (db : DB) (uid sid pid : Nat)
    (stocks : Rat) (sz ty fr kl : String) (pr : Option Rat) (u : User)
    (hu : db.users.find? (fun x => x.id == uid) = some u)
    (hty : u.type = "disposer")
    (hsid : stallIdForDisposer db uid = some sid)
    (hpid : pid ≠ 0) (hsz : sz ≠ "") (hti : ty ≠ "") (hfr : fr ≠ "") (hkl : kl ≠ "")
    (hstocks : stocks ≤ 0) :
    create_stall_inventory db (some uid) ⟨some pid, some stocks, sz, ty, fr, kl, pr⟩ =
      (.err 400 "stocks must be > 0", db) := by
  have huid : u.id = uid := find?_eq_some_id (fun x : User => x.id) _ _ _ hu
  have hrole := requireRole_ok db uid u "disposer" "forbidden, disposer only" hu hty
  have hsid' : stallIdForDisposer db u.id = some sid := by rw [huid]; exact hsid
  simp only [create_stall_inventory, hrole, hsid']
  rw [if_neg (by push_neg; exact ⟨hpid, hsz, hti, hfr, hkl⟩)]
  rw [if_pos hstocks]

theorem update_stall_inventory_nonpos (db : DB) (uid sid invId : Nat)
    (stocks : Rat) (body : InvPatch) (u : User) (row : InventoryRow)
    (hu : db.users.find? (fun x => x.id == uid) = some u)
    (hty : u.type = "disposer")
    (hsid : stallIdForDisposer db uid = some sid)
    (hrow : db.stall_inventory.find? (fun r => r.id == invId) = some row)
    (hown : row.stall_id = sid)
    (hbody : body.stocks = some stocks)
    (hstocks : stocks ≤ 0) :
    update_stall_inventory db (some uid) invId body =
      (.err 400 "stocks must be > 0", db) := by
  have huid : u.id = uid := find?_eq_some_id (fun x : User => x.id) _ _ _ hu
  have hrole := requireRole_ok db uid u "disposer" "forbidden, disposer only" hu hty
  have hsid' : stallIdForDisposer db u.id = some sid := by rw [huid]; exact hsid
  simp only [update_stall_inventory, hrole, hsid', hrow]
  rw [if_neg (by simp [hown])]
  rw [if_pos (by simp [someAnd, hbody, hstocks])]

/- ===== Claim theorems and witnesses ===== -/

/-- C1: an Order creation by a consumer against an existing StallInventory
row fails with the insufficient stocks validation error and leaves the
database, hence the stocks and the set of Orders, exactly unchanged when
the requested weight strictly exceeds the current stocks; when the weight
is at most the stocks and all other inputs are valid the call succeeds. -/
theorem no_overdraw_create_order (db : DB) (uid invId : Nat) (a w : Rat)
    (m : String) (u : User) (inv : InventoryRow)
    (hu : db.users.find? (fun x => x.id == uid) = some u)
    (hty : u.type = "consumer")
    (hinv : db.stall_inventory.find? (fun si => si.id == invId) = some inv)
    (hid : invId ≠ 0)
    (hm : m ∈ ALLOWED_METHODS)
    (ha : 0 ≤ a) (hw : 0 < w)
    (hp : (db.products.find? (fun p => p.id == inv.product_id)).isSome)
    (hst : (db.stalls.find? (fun s => s.id == inv.stall_id)).isSome) :
    (inv.stocks < w ∧ create_order db (some uid) ⟨some invId, some a, m, some w⟩ =
      (.err 400 "weight exceeds available stocks", db)) ∨
    (w ≤ inv.stocks ∧ create_order db (some uid) ⟨some invId, some a, m, some w⟩ =
      (.ok 201 (newOrderOf db uid invId a w m), dbAfterCreateOrder db uid invId a w m)) := by
  by_cases hlt : inv.stocks < w
  · exact Or.inl ⟨hlt,
      create_order_insufficient db uid invId a w m u inv hu hty hinv hid hm ha hw hlt⟩
  · exact Or.inr ⟨not_lt.mp hlt,
      create_order_success db uid invId a w m u inv hu hty hinv hid hm ha hw
        (not_lt.mp hlt) hp hst⟩

theorem no_overdraw_create_order_witness :
    (((⟨1, 10, "Big", "Organic", "fresh", "A", none, 1, 1⟩ : InventoryRow).stocks < 4 ∧
      create_order cdb (some 3) ⟨some 1, some 5, "cash", some 4⟩ =
        (.err 400 "weight exceeds available stocks", cdb)) ∨
    ((4 : Rat) ≤ (⟨1, 10, "Big", "Organic", "fresh", "A", none, 1, 1⟩ : InventoryRow).stocks ∧
      create_order cdb (some 3) ⟨some 1, some 5, "cash", some 4⟩ =
        (.ok 201 (newOrderOf cdb 3 1 5 4 "cash"), dbAfterCreateOrder cdb 3 1 5 4 "cash"))) :=
  no_overdraw_create_order cdb 3 1 5 4 "cash" ⟨3, "consumer"⟩
    ⟨1, 10, "Big", "Organic", "fresh", "A", none, 1, 1⟩
    (by decide) rfl (by decide) (by decide) (by decide) (by decide) (by decide)
    (by decide) (by decide)

/-- C2: a successful Order creation decrements the stocks of the referenced
inventory row by exactly the ordered weight and adds exactly that weight to
the live Order weight of the row, so their sum is conserved; deleting that
still processing Order by the owning consumer then restores the entire
database, in particular the stocks, to its value before the creation. -/
theorem create_delete_order_roundtrip (db : DB) (uid invId : Nat) (a w : Rat)
    (m : String) (u : User) (inv : InventoryRow)
    (hu : db.users.find? (fun x => x.id == uid) = some u)
    (hty : u.type = "consumer")
    (hinv : db.stall_inventory.find? (fun si => si.id == invId) = some inv)
    (hid : invId ≠ 0)
    (hm : m ∈ ALLOWED_METHODS)
    (ha : 0 ≤ a) (hw : 0 < w)
    (hle : w ≤ inv.stocks)
    (hp : (db.products.find? (fun p => p.id == inv.product_id)).isSome)
    (hst : (db.stalls.find? (fun s => s.id == inv.stall_id)).isSome) :
    create_order db (some uid) ⟨some invId, some a, m, some w⟩ =
      (.ok 201 (newOrderOf db uid invId a w m), dbAfterCreateOrder db uid invId a w m) ∧
    stocksOf (dbAfterCreateOrder db uid invId a w m) invId = some (inv.stocks - w) ∧
    liveOrderWeight (dbAfterCreateOrder db uid invId a w m) invId =
      liveOrderWeight db invId + w ∧
    delete_order (dbAfterCreateOrder db uid invId a w m) (some uid)
      (newOrderOf db uid invId a w m).id = (.ok 204 (), db) := by
  have huid : u.id = uid := find?_eq_some_id (fun x : User => x.id) _ _ _ hu
  refine ⟨create_order_success db uid invId a w m u inv hu hty hinv hid hm ha hw hle hp hst,
    ?_, ?_, ?_⟩
  · have hinv2 : (db.stall_inventory.map
        (fun r => if r.id == invId then { r with stocks := r.stocks - w } else r)).find?
        (fun si => si.id == invId) = some { inv with stocks := inv.stocks - w } := by
      have := find?_map_update (fun r : InventoryRow => r.id == invId)
        (fun r => { r with stocks := r.stocks - w }) (fun r h => h) db.stall_inventory inv hinv
      simpa using this
    simp only [stocksOf, dbAfterCreateOrder, hinv2]
    rfl
  · simp only [liveOrderWeight, dbAfterCreateOrder, newOrderOf]
    rw [List.filter_cons_of_pos (by simp)]
    simp [add_comm]
  · have hu1 : (dbAfterCreateOrder db uid invId a w m).users.find?
        (fun x => x.id == uid) = some u := by
      simpa [dbAfterCreateOrder] using hu
    have ho1 : (dbAfterCreateOrder db uid invId a w m).orders.find?
        (fun x => x.id == (newOrderOf db uid invId a w m).id) =
        some (newOrderOf db uid invId a w m) := by
      simp only [dbAfterCreateOrder]
      exact List.find?_cons_of_pos _ (by simp)
    have hdel := delete_order_success (dbAfterCreateOrder db uid invId a w m) uid
      (newOrderOf db uid invId a w m).id w u (newOrderOf db uid invId a w m)
      hu1 hty ho1 (by simp [newOrderOf, huid]) rfl rfl
    rw [hdel]
    congr 1
    have hfresh : freshId (db.orders.map (fun o => o.id)) ∉
        db.orders.map (fun o => o.id) := freshId_not_mem _
    have hinvRT : ((dbAfterCreateOrder db uid invId a w m).stall_inventory.map
        (fun r => if r.id == (newOrderOf db uid invId a w m).stall_inventory_id then
          { r with stocks := r.stocks + w } else r)) = db.stall_inventory := by
      simp only [dbAfterCreateOrder, newOrderOf, List.map_map]
      have hcomp : ∀ r : InventoryRow,
          ((fun r => if r.id == invId then { r with stocks := r.stocks + w } else r) ∘
           (fun r => if r.id == invId then { r with stocks := r.stocks - w } else r)) r = r := by
        intro r
        by_cases h : (r.id == invId) = true
        · simp [Function.comp, h]
        · simp [Function.comp, h]
      rw [List.map_congr_left (fun r _ => hcomp r)]
      exact List.map_id' _
    have hordRT : ((dbAfterCreateOrder db uid invId a w m).orders.filter
        (fun x => !(x.id == (newOrderOf db uid invId a w m).id))) = db.orders := by
      simp only [dbAfterCreateOrder]
      rw [List.filter_cons_of_neg (by simp)]
      apply List.filter_eq_self.mpr
      intro o hmem
      simp only [Bool.not_eq_true', beq_eq_false_iff_ne, ne_eq]
      intro hcontra
      simp only [newOrderOf] at hcontra
      exact hfresh (by rw [← hcontra]; exact List.mem_map_of_mem _ hmem)
    cases db
    simp only [dbAfterCreateOrder, newOrderOf] at hinvRT hordRT ⊢
    simp_all

theorem create_delete_order_roundtrip_witness :
    create_order cdb (some 3) ⟨some 1, some 5, "cash", some 4⟩ =
      (.ok 201 (newOrderOf cdb 3 1 5 4 "cash"), dbAfterCreateOrder cdb 3 1 5 4 "cash") ∧
    stocksOf (dbAfterCreateOrder cdb 3 1 5 4 "cash") 1 =
      some ((⟨1, 10, "Big", "Organic", "fresh", "A", none, 1, 1⟩ : InventoryRow).stocks - 4) ∧
    liveOrderWeight (dbAfterCreateOrder cdb 3 1 5 4 "cash") 1 =
      liveOrderWeight cdb 1 + 4 ∧
    delete_order (dbAfterCreateOrder cdb 3 1 5 4 "cash") (some 3)
      (newOrderOf cdb 3 1 5 4 "cash").id = (.ok 204 (), cdb) :=
  create_delete_order_roundtrip cdb 3 1 5 4 "cash" ⟨3, "consumer"⟩
    ⟨1, 10, "Big", "Organic", "fresh", "A", none, 1, 1⟩
    (by decide) rfl (by decide) (by decide) (by decide) (by decide) (by decide)
    (by decide) (by decide) (by decide)

/-- C3: the source does not enforce terminality of Request statuses.  In the
concrete database the request has the terminal status completed, yet a
status PATCH by the owning disposer to accepted succeeds with 200 and
overwrites the status: update_request_status never inspects the current
status.  This contradicts invariant I1 of the specification and is the
open question the specification flags; the claim is taken as the intent
and the source behaviour as the bug. -/
theorem request_patch_escapes_terminal_status :
    (cdb.requests.find? (fun r => r.id == 1)).map (fun r => r.status) =
      some "completed" ∧
    update_request_status cdb (some 1) 1 "accepted" =
      (.ok 200 ⟨1, 10, "cash", "accepted", 1, 1⟩,
        { cdb with requests := [⟨1, 10, "cash", "accepted", 1, 1⟩] }) := by
  constructor
  · decide
  · decide

/-- C4 counterexample: delete_demand is a second operation that deletes a
Demand row.  In the concrete database it succeeds with 204, removes demand
1, and leaves request 1, which references demand 1, untouched: after the
call a Request references an absent Demand. -/
theorem delete_demand_dangling_request_cex :
    delete_demand cdb (some 1) 1 = (.ok 204 (), { cdb with demands := [] }) ∧
    (cdb.requests.find? (fun r => r.id == 1)).map (fun r => r.demand_id) = some 1 ∧
    ({ cdb with demands := ([] : List Demand) }).requests = cdb.requests ∧
    ({ cdb with demands := ([] : List Demand) }).demands.find?
      (fun d : Demand => d.id == 1) = none := by
  refine ⟨by decide, by decide, rfl, by decide⟩

/-- C4 amended: demand completion is not the only deletion path; the plain
delete_demand route also deletes a Demand row, and it performs no cascade:
a successful delete_demand removes the demand and leaves the requests
table exactly unchanged, so Requests referencing the deleted Demand become
dangling. -/
theorem delete_demand_no_cascade (db : DB) (uid did sid : Nat)
    (u : User) (d : Demand)
    (hu : db.users.find? (fun x => x.id == uid) = some u)
    (hty : u.type = "disposer")
    (hsid : stallIdForDisposer db uid = some sid)
    (hd : db.demands.find? (fun x => x.id == did) = some d)
    (hown : d.stall_id = sid) :
    delete_demand db (some uid) did =
      (.ok 204 (),
        { db with demands := db.demands.filter (fun x => !(x.id == did)) }) ∧
    ((delete_demand db (some uid) did).2).requests = db.requests ∧
    ((delete_demand db (some uid) did).2).demands.find?
      (fun x => x.id == did) = none := by
  have h := delete_demand_success db uid did sid u d hu hty hsid hd hown
  refine ⟨h, ?_, ?_⟩
  · rw [h]
  · rw [h]
    exact find?_filter_not_key (fun x : Demand => x.id) did _

theorem delete_demand_no_cascade_witness :
    delete_demand cdb (some 1) 1 =
      (.ok 204 (),
        { cdb with demands := cdb.demands.filter (fun x => !(x.id == 1)) }) ∧
    ((delete_demand cdb (some 1) 1).2).requests = cdb.requests ∧
    ((delete_demand cdb (some 1) 1).2).demands.find?
      (fun x => x.id == 1) = none :=
  delete_demand_no_cascade cdb 1 1 1 ⟨1, "disposer"⟩ ⟨1, 50, 1, 1⟩
    (by decide) rfl (by decide) (by decide) (by decide)

/-- C5: a successful completeDemand on an owned Demand yields, in one step,
the state in which every Request whose demand_id equals the Demand is
completed and the Demand row is absent; the sequential embedding of the
route produces no intermediate observable state. -/
theorem complete_demand_atomic (db : DB) (uid did sid : Nat)
    (u : User) (d : Demand)
    (hu : db.users.find? (fun x => x.id == uid) = some u)
    (hty : u.type = "disposer")
    (hsid : stallIdForDisposer db uid = some sid)
    (hd : db.demands.find? (fun x => x.id == did) = some d)
    (hown : d.stall_id = sid) :
    complete_demand db (some uid) did =
      (.ok 200 (),
        { db with
          requests := db.requests.map
            (fun r => if r.demand_id == did then { r with status := "completed" } else r),
          demands := db.demands.filter (fun x => !(x.id == did)) }) ∧
    ((complete_demand db (some uid) did).2).requests.all
      (fun r => !(r.demand_id == did) || (r.status == "completed")) = true ∧
    ((complete_demand db (some uid) did).2).demands.find?
      (fun x => x.id == did) = none := by
  have h := complete_demand_success db uid did sid u d hu hty hsid hd hown
  refine ⟨h, ?_, ?_⟩
  · rw [h]
    exact completed_all db.requests did
  · rw [h]
    exact find?_filter_not_key (fun x : Demand => x.id) did _

theorem complete_demand_atomic_witness :
    complete_demand cdb (some 1) 1 =
      (.ok 200 (),
        { cdb with
          requests := cdb.requests.map
            (fun r => if r.demand_id == 1 then { r with status := "completed" } else r),
          demands := cdb.demands.filter (fun x => !(x.id == 1)) }) ∧
    ((complete_demand cdb (some 1) 1).2).requests.all
      (fun r => !(r.demand_id == 1) || (r.status == "completed")) = true ∧
    ((complete_demand cdb (some 1) 1).2).demands.find?
      (fun x => x.id == 1) = none :=
  complete_demand_atomic cdb 1 1 1 ⟨1, "disposer"⟩ ⟨1, 50, 1, 1⟩
    (by decide) rfl (by decide) (by decide) (by decide)

/-- C6: starting from a state with at most one Demand row for the pair of
the stall and the product, two create-or-update-demand calls with the same
pair and any two positive weights leave exactly one Demand row for the
pair, and its weight is the weight of the second call: the second call
updates the existing row instead of inserting. -/
theorem demand_upsert_idempotent (db : DB) (uid sid pid : Nat) (w1 w2 : Rat)
    (u : User)
    (hu : db.users.find? (fun x => x.id == uid) = some u)
    (hty : u.type = "disposer")
    (hsid : stallIdForDisposer db uid = some sid)
    (hpid : pid ≠ 0) (hw1 : 0 < w1) (hw2 : 0 < w2)
    (hprod : (db.products.find? (fun p => p.id == pid)).isSome)
    (hcount : (db.demands.filter
      (fun d => d.stall_id == sid && d.product_id == pid)).length ≤ 1) :
    (((create_or_update_demand ((create_or_update_demand db (some uid)
        ⟨some pid, some w1⟩).2) (some uid) ⟨some pid, some w2⟩).2).demands.filter
      (fun d => d.stall_id == sid && d.product_id == pid)).length = 1 ∧
    (((create_or_update_demand ((create_or_update_demand db (some uid)
        ⟨some pid, some w1⟩).2) (some uid) ⟨some pid, some w2⟩).2).demands.filter
      (fun d => d.stall_id == sid && d.product_id == pid)).all
      (fun d => d.weight == w2) = true := by
  cases hcase : db.demands.find? (fun d => d.stall_id == sid && d.product_id == pid) with
  | none =>
    have h1 := upsert_insert_state db uid sid pid w1 u hu hty hsid hpid hw1 hprod hcase
    rw [h1]
    have hfind2 : ((⟨freshId (db.demands.map (fun d => d.id)), w1, sid, pid⟩ : Demand) ::
        db.demands).find? (fun d => d.stall_id == sid && d.product_id == pid) =
        some ⟨freshId (db.demands.map (fun d => d.id)), w1, sid, pid⟩ :=
      List.find?_cons_of_pos _ (by simp)
    have h2 := upsert_update_state
      { db with
        demands :=
          (⟨freshId (db.demands.map (fun d => d.id)), w1, sid, pid⟩ : Demand) ::
            db.demands }
      uid sid pid w2 u ⟨freshId (db.demands.map (fun d => d.id)), w1, sid, pid⟩
      hu hty hsid hpid hw2 hprod hfind2
    rw [h2]
    have hnil : db.demands.filter
        (fun d => d.stall_id == sid && d.product_id == pid) = [] := by
      apply List.filter_eq_nil.mpr
      intro d hd hpd
      exact List.find?_eq_none.mp hcase d hd hpd
    simp only [List.map_cons]
    rw [List.filter_cons_of_pos (by simp)]
    rw [filter_pair_upd, hnil]
    simp
  | some d0 =>
    have h1 := upsert_update_state db uid sid pid w1 u d0 hu hty hsid hpid hw1 hprod hcase
    rw [h1]
    have hpair0 := List.find?_some hcase
    have hd0mem : d0 ∈ db.demands := List.mem_of_find?_eq_some hcase
    have hfind2 : ((db.demands.map
        (fun d => if d.id == d0.id then { d with weight := w1 } else d)).find?
        (fun d => d.stall_id == sid && d.product_id == pid)) =
        some { d0 with weight := w1 } := by
      rw [find?_pair_upd, hcase]
      simp
    have h2 := upsert_update_state
      { db with
        demands := db.demands.map
          (fun d => if d.id == d0.id then { d with weight := w1 } else d) }
      uid sid pid w2 u { d0 with weight := w1 }
      hu hty hsid hpid hw2 hprod hfind2
    rw [h2]
    have hfil : db.demands.filter
        (fun d => d.stall_id == sid && d.product_id == pid) = [d0] := by
      have hmemf : d0 ∈ db.demands.filter
          (fun d => d.stall_id == sid && d.product_id == pid) :=
        List.mem_filter.mpr ⟨hd0mem, hpair0⟩
      have hlen : 0 < (db.demands.filter
          (fun d => d.stall_id == sid && d.product_id == pid)).length :=
        List.length_pos.mpr (List.ne_nil_of_mem hmemf)
      have hlen1 : (db.demands.filter
          (fun d => d.stall_id == sid && d.product_id == pid)).length = 1 := by omega
      obtain ⟨b, hb⟩ := List.length_eq_one.mp hlen1
      rw [hb] at hmemf
      rw [hb, List.mem_singleton.mp hmemf]
    rw [filter_pair_upd, filter_pair_upd, hfil]
    simp

theorem demand_upsert_idempotent_witness :
    (((create_or_update_demand ((create_or_update_demand cdb (some 1)
        ⟨some 1, some 60⟩).2) (some 1) ⟨some 1, some 70⟩).2).demands.filter
      (fun d => d.stall_id == 1 && d.product_id == 1)).length = 1 ∧
    (((create_or_update_demand ((create_or_update_demand cdb (some 1)
        ⟨some 1, some 60⟩).2) (some 1) ⟨some 1, some 70⟩).2).demands.filter
      (fun d => d.stall_id == 1 && d.product_id == 1)).all
      (fun d => d.weight == (70 : Rat)) = true :=
  demand_upsert_idempotent cdb 1 1 1 60 70 ⟨1, "disposer"⟩
    (by decide) rfl (by decide) (by decide) (by decide) (by decide) (by decide)
    (by decide)

/-- C7: for both Request creation flows, validated against an existing
Demand with all other inputs valid, the outcome is characterised exactly:
the call fails with the 400 validation error for a product mismatch alone,
otherwise with the 400 weight error exactly when the supply weight is
strictly greater than the demand weight, and otherwise succeeds with 201;
in particular equality of the weights is accepted. -/
theorem supply_demand_validation_iff (db : DB) (uid pid did sId : Nat)
    (w price1 price2 : Rat) (m1 m2 : String) (u : User) (s : Supply) (d : Demand)
    (hu : db.users.find? (fun x => x.id == uid) = some u)
    (hty : u.type = "farmer")
    (hpid : pid ≠ 0) (hdid : did ≠ 0) (hsid : sId ≠ 0)
    (hm1 : m1 ∈ ALLOWED_METHODS) (hm2 : m2 ∈ ALLOWED_METHODS)
    (hw : 0 < w) (hprice1 : 0 ≤ price1) (hprice2 : 0 ≤ price2)
    (hprod : (db.products.find? (fun p => p.id == pid)).isSome)
    (hd : db.demands.find? (fun x => x.id == did) = some d)
    (hs : db.supplies.find? (fun x => x.id == sId) = some s)
    (hsown : s.farmer_id = uid)
    (hstall : (db.stalls.find? (fun st => st.id == d.stall_id)).isSome) :
    (create_supply_and_request db (some uid) ⟨some pid, some w, some did, some price1, m1⟩ =
      if d.product_id ≠ pid then
        (.err 400 "demand.product_id does not match product_id", db)
      else if d.weight < w then
        (.err 400 "supplied weight cannot exceed demanded weight", db)
      else
        (.ok 201 (⟨freshId (db.supplies.map (fun x => x.id)), w, uid, pid⟩,
            ⟨freshId (db.requests.map (fun r => r.id)), price1, m1, "processing",
              freshId (db.supplies.map (fun x => x.id)), did⟩),
          { db with
            supplies :=
              (⟨freshId (db.supplies.map (fun x => x.id)), w, uid, pid⟩ : Supply) ::
                db.supplies,
            requests :=
              (⟨freshId (db.requests.map (fun r => r.id)), price1, m1, "processing",
                freshId (db.supplies.map (fun x => x.id)), did⟩ : RequestRow) ::
                db.requests })) ∧
    (create_request db (some uid) ⟨some sId, some did, some price2, m2⟩ =
      if d.product_id ≠ s.product_id then
        (.err 400 "demand.product_id does not match supply.product_id", db)
      else if d.weight < s.weight then
        (.err 400 "supplied weight cannot exceed demanded weight", db)
      else
        (.ok 201 (⟨freshId (db.requests.map (fun r => r.id)), price2, m2, "processing",
            sId, did⟩ : RequestRow),
          { db with
            requests :=
              (⟨freshId (db.requests.map (fun r => r.id)), price2, m2, "processing",
                sId, did⟩ : RequestRow) :: db.requests })) :=
  ⟨create_supply_and_request_eq db uid pid did w price1 m1 u d
      hu hty hpid hdid hm1 hw hprice1 hprod hd,
    create_request_eq db uid sId did price2 m2 u s d
      hu hty hsid hdid hm2 hprice2 hs hsown hd hstall⟩

theorem supply_demand_validation_iff_witness :
    (create_supply_and_request cdb (some 2) ⟨some 1, some 50, some 1, some 13, "cash"⟩ =
      if (⟨1, 50, 1, 1⟩ : Demand).product_id ≠ 1 then
        (.err 400 "demand.product_id does not match product_id", cdb)
      else if (⟨1, 50, 1, 1⟩ : Demand).weight < 50 then
        (.err 400 "supplied weight cannot exceed demanded weight", cdb)
      else
        (.ok 201 (⟨freshId (cdb.supplies.map (fun x => x.id)), 50, 2, 1⟩,
            ⟨freshId (cdb.requests.map (fun r => r.id)), 13, "cash", "processing",
              freshId (cdb.supplies.map (fun x => x.id)), 1⟩),
          { cdb with
            supplies :=
              (⟨freshId (cdb.supplies.map (fun x => x.id)), 50, 2, 1⟩ : Supply) ::
                cdb.supplies,
            requests :=
              (⟨freshId (cdb.requests.map (fun r => r.id)), 13, "cash", "processing",
                freshId (cdb.supplies.map (fun x => x.id)), 1⟩ : RequestRow) ::
                cdb.requests })) ∧
    (create_request cdb (some 2) ⟨some 1, some 1, some 14, "gcash"⟩ =
      if (⟨1, 50, 1, 1⟩ : Demand).product_id ≠ (⟨1, 50, 2, 1⟩ : Supply).product_id then
        (.err 400 "demand.product_id does not match supply.product_id", cdb)
      else if (⟨1, 50, 1, 1⟩ : Demand).weight < (⟨1, 50, 2, 1⟩ : Supply).weight then
        (.err 400 "supplied weight cannot exceed demanded weight", cdb)
      else
        (.ok 201 (⟨freshId (cdb.requests.map (fun r => r.id)), 14, "gcash", "processing",
            1, 1⟩ : RequestRow),
          { cdb with
            requests :=
              (⟨freshId (cdb.requests.map (fun r => r.id)), 14, "gcash", "processing",
                1, 1⟩ : RequestRow) :: cdb.requests })) :=
  supply_demand_validation_iff cdb 2 1 1 1 50 13 14 "cash" "gcash"
    ⟨2, "farmer"⟩ ⟨1, 50, 2, 1⟩ ⟨1, 50, 1, 1⟩
    (by decide) rfl (by decide) (by decide) (by decide) (by decide) (by decide)
    (by decide) (by decide) (by decide) (by decide) (by decide) (by decide)
    (by decide) (by decide)

/-- C8: the disposer side Order status update is a pure status write: for
every call of update_order_status, on success or failure, the inventory
table is unchanged, so no stock is restored on any transition, and the
orders table is unchanged except possibly for status fields, so the amount,
weight, method, consumer and inventory reference of every order persist. -/
theorem update_order_status_frame (db : DB) (auth : Option Nat) (oid : Nat)
    (status : String) :
    ((update_order_status db auth oid status).2).stall_inventory =
      db.stall_inventory ∧
    ((update_order_status db auth oid status).2).orders.map eraseStatus =
      db.orders.map eraseStatus := by
  have hmap : (db.orders.map
      (fun o => if o.id == oid then { o with status := status } else o)).map eraseStatus =
      db.orders.map eraseStatus := by
    rw [List.map_map]
    apply List.map_congr_left
    intro o _
    by_cases h : (o.id == oid) = true <;> simp [Function.comp, eraseStatus, h]
  unfold update_order_status
  split
  · exact ⟨rfl, rfl⟩
  · split
    · exact ⟨rfl, rfl⟩
    · split
      · exact ⟨rfl, rfl⟩
      · split
        · split
          · dsimp only
            split
            · exact ⟨rfl, hmap⟩
            · exact ⟨rfl, hmap⟩
          · exact ⟨rfl, rfl⟩
        · exact ⟨rfl, rfl⟩

/-- C9: ownership isolation.  A farmer lists exactly the requests whose
join exists and whose supply is their own, and every listed request passes
the ownership test; fetching a request whose supply belongs to another
farmer fails with 404 and deleting it fails with 403, both leaving the
database unchanged; a consumer fetching an order owned by another consumer
gets 404 with no state change. -/
theorem ownership_isolation (db : DB) (uidF uidC rid oid : Nat)
    (uF uC : User) (r : RequestRow) (s : Supply) (o : OrderRow)
    (huF : db.users.find? (fun x => x.id == uidF) = some uF)
    (htyF : uF.type = "farmer")
    (hr : db.requests.find? (fun x => x.id == rid) = some r)
    (hs : db.supplies.find? (fun x => x.id == r.supply_id) = some s)
    (hneF : s.farmer_id ≠ uidF)
    (huC : db.users.find? (fun x => x.id == uidC) = some uC)
    (htyC : uC.type = "consumer")
    (ho : db.orders.find? (fun x => x.id == oid) = some o)
    (hneC : o.consumer_id ≠ uidC) :
    list_requests db (some uidF) =
      (.ok 200 (db.requests.filter (fun x => requestVisibleToFarmer db uidF x)), db) ∧
    (db.requests.filter (fun x => requestVisibleToFarmer db uidF x)).all
      (fun x => supplyOwnedBy db uidF x) = true ∧
    get_request db (some uidF) rid = (.err 404 "request not found", db) ∧
    delete_request db (some uidF) rid = (.err 403 "forbidden, not your request", db) ∧
    get_order db (some uidC) oid = (.err 404 "order not found", db) :=
  ⟨list_requests_farmer_eq db uidF uF huF htyF,
    visible_filter_owned db uidF,
    get_request_wrong_farmer db uidF rid uF r s huF htyF hr hs hneF,
    delete_request_wrong_farmer db uidF rid uF r s huF htyF hr hs hneF,
    get_order_wrong_consumer db uidC oid uC o huC htyC ho hneC⟩

theorem ownership_isolation_witness :
    list_requests cdb (some 5) =
      (.ok 200 (cdb.requests.filter (fun x => requestVisibleToFarmer cdb 5 x)), cdb) ∧
    (cdb.requests.filter (fun x => requestVisibleToFarmer cdb 5 x)).all
      (fun x => supplyOwnedBy cdb 5 x) = true ∧
    get_request cdb (some 5) 1 = (.err 404 "request not found", cdb) ∧
    delete_request cdb (some 5) 1 = (.err 403 "forbidden, not your request", cdb) ∧
    get_order cdb (some 4) 1 = (.err 404 "order not found", cdb) :=
  ownership_isolation cdb 5 4 1 1 ⟨5, "farmer"⟩ ⟨4, "consumer"⟩
    ⟨1, 10, "cash", "completed", 1, 1⟩ ⟨1, 50, 2, 1⟩
    ⟨1, 5, "cash", "processing", some 2, 1, 3⟩
    (by decide) rfl (by decide) (by decide) (by decide) (by decide) rfl
    (by decide) (by decide)

/-- C10: direct stock edits must be strictly positive while order creation
may reach zero.  Creating an inventory row with stocks at most zero and
patching the stocks of an owned row to at most zero both fail with the 400
validation error and leave the database unchanged, so a disposer can never
set stocks to exactly zero directly; an order whose weight equals the
current stocks succeeds and drives the stocks of the row to exactly zero. -/
theorem stock_edit_positivity (db : DB) (uidD uidC sid pid invId : Nat)
    (s1 s2 a : Rat) (sz ty fr kl : String) (pr : Option Rat) (patch : InvPatch)
    (uD uC : User) (row inv : InventoryRow)
    (huD : db.users.find? (fun x => x.id == uidD) = some uD)
    (htyD : uD.type = "disposer")
    (hsid : stallIdForDisposer db uidD = some sid)
    (hpid : pid ≠ 0) (hsz : sz ≠ "") (hti : ty ≠ "") (hfr : fr ≠ "") (hkl : kl ≠ "")
    (hs1 : s1 ≤ 0)
    (hrow : db.stall_inventory.find? (fun r => r.id == invId) = some row)
    (hown : row.stall_id = sid)
    (hpatch : patch.stocks = some s2)
    (hs2 : s2 ≤ 0)
    (huC : db.users.find? (fun x => x.id == uidC) = some uC)
    (htyC : uC.type = "consumer")
    (hinv : db.stall_inventory.find? (fun si => si.id == invId) = some inv)
    (hid : invId ≠ 0)
    (hm : "cash" ∈ ALLOWED_METHODS)
    (ha : 0 ≤ a) (hpos : 0 < inv.stocks)
    (hp : (db.products.find? (fun p => p.id == inv.product_id)).isSome)
    (hst : (db.stalls.find? (fun x => x.id == inv.stall_id)).isSome) :
    create_stall_inventory db (some uidD) ⟨some pid, some s1, sz, ty, fr, kl, pr⟩ =
      (.err 400 "stocks must be > 0", db) ∧
    update_stall_inventory db (some uidD) invId patch =
      (.err 400 "stocks must be > 0", db) ∧
    create_order db (some uidC) ⟨some invId, some a, "cash", some inv.stocks⟩ =
      (.ok 201 (newOrderOf db uidC invId a inv.stocks "cash"),
        dbAfterCreateOrder db uidC invId a inv.stocks "cash") ∧
    stocksOf (dbAfterCreateOrder db uidC invId a inv.stocks "cash") invId = some 0 := by
  refine ⟨create_stall_inventory_nonpos db uidD sid pid s1 sz ty fr kl pr uD
      huD htyD hsid hpid hsz hti hfr hkl hs1,
    update_stall_inventory_nonpos db uidD sid invId s2 patch uD row
      huD htyD hsid hrow hown hpatch hs2,
    create_order_success db uidC invId a inv.stocks "cash" uC inv
      huC htyC hinv hid hm ha hpos le_rfl hp hst, ?_⟩
  have hinv2 : (db.stall_inventory.map
      (fun r => if r.id == invId then { r with stocks := r.stocks - inv.stocks } else r)).find?
      (fun si => si.id == invId) =
      some { inv with stocks := inv.stocks - inv.stocks } := by
    have := find?_map_update (fun r : InventoryRow => r.id == invId)
      (fun r => { r with stocks := r.stocks - inv.stocks }) (fun r h => h)
      db.stall_inventory inv hinv
    simpa using this
  simp only [stocksOf, dbAfterCreateOrder, hinv2]
  simp

theorem stock_edit_positivity_witness :
    create_stall_inventory cdb (some 1) ⟨some 1, some 0, "S", "T", "F", "A", none⟩ =
      (.err 400 "stocks must be > 0", cdb) ∧
    update_stall_inventory cdb (some 1) 1 ⟨some 0, none, none, none, none, none⟩ =
      (.err 400 "stocks must be > 0", cdb) ∧
    create_order cdb (some 3) ⟨some 1, some 5, "cash",
      some (⟨1, 10, "Big", "Organic", "fresh", "A", none, 1, 1⟩ : InventoryRow).stocks⟩ =
      (.ok 201 (newOrderOf cdb 3 1 5
          (⟨1, 10, "Big", "Organic", "fresh", "A", none, 1, 1⟩ : InventoryRow).stocks "cash"),
        dbAfterCreateOrder cdb 3 1 5
          (⟨1, 10, "Big", "Organic", "fresh", "A", none, 1, 1⟩ : InventoryRow).stocks "cash") ∧
    stocksOf (dbAfterCreateOrder cdb 3 1 5
      (⟨1, 10, "Big", "Organic", "fresh", "A", none, 1, 1⟩ : InventoryRow).stocks "cash") 1 =
      some 0 :=
  stock_edit_positivity cdb 1 3 1 1 1 0 0 5 "S" "T" "F" "A" none
    ⟨some 0, none, none, none, none, none⟩ ⟨1, "disposer"⟩ ⟨3, "consumer"⟩
    ⟨1, 10, "Big", "Organic", "fresh", "A", none, 1, 1⟩
    ⟨1, 10, "Big", "Organic", "fresh", "A", none, 1, 1⟩
    (by decide) rfl (by decide) (by decide) (by decide) (by decide) (by decide)
    (by decide) (by decide) (by decide) (by decide) rfl (by decide) (by decide)
    rfl (by decide) (by decide) (by decide) (by decide) (by decide) (by decide)
    (by decide)

end GreenChain
